import Mathlib

/-!
Shallow embedding of the Subspace executor core (`cumulus/client/cirrus-executor/src/lib.rs`):
the gossip handler for bundles and execution receipts, fraud-proof synthesis, the
wait-for-local-receipt loop and the active-leaves bootstrap.  External collaborators
(clients, runtime APIs, keystore, prover backend) are modelled as explicit function
parameters gathered in environment structures; hashes, signatures and extrinsics are
opaque naturals.
-/

namespace Subspace

/-- Opaque hash values (`H256`, block hashes, state roots). -/
abbrev Hash := Nat

/-- Opaque executor identities (`ExecutorId`). -/
abbrev ExecutorId := Nat

/-- Opaque signatures. -/
abbrev Signature := Nat

/-- Opaque extrinsics (transactions). -/
abbrev Extrinsic := Nat

/-- Opaque storage proofs produced by the execution prover. -/
abbrev StorageProof := Nat

/-- Opaque runtime-api errors (`sp_api::ApiError`). -/
abbrev ApiError := Nat

/-- Model of `sp_blockchain::Error`: a backend error carrying the offending hash
(for the "not found for {hash}" errors built in the source) or some other io error. -/
inductive BlockchainError where
  | Backend (h : Hash)
  | Io (n : Nat)
deriving DecidableEq

/-- A block header: number, extrinsics root, state root, parent hash, digest.
Default values of the opaque fields are modelled as 0. -/
structure Header where
  number : Nat
  extrinsics_root : Hash
  state_root : Hash
  parent_hash : Hash
  digest : Nat
deriving DecidableEq

/-- An execution receipt: primary number/hash, secondary hash and the trace of
intermediate state roots. -/
structure ExecutionReceipt where
  primary_number : Nat
  primary_hash : Hash
  secondary_hash : Hash
  trace : List Hash
deriving DecidableEq

/-- A signed execution receipt. -/
structure SignedExecutionReceipt where
  execution_receipt : ExecutionReceipt
  signature : Signature
  signer : ExecutorId
deriving DecidableEq

/-- A bundle header: slot number, primary hash and the receipts vector. -/
structure BundleHeader where
  slot_number : Nat
  primary_hash : Hash
  receipts : List ExecutionReceipt
deriving DecidableEq

/-- A bundle of extrinsics. -/
structure Bundle where
  header : BundleHeader
  extrinsics : List Extrinsic
deriving DecidableEq

/-- A signed bundle. -/
structure SignedBundle where
  bundle : Bundle
  signature : Signature
  signer : ExecutorId
deriving DecidableEq

/-- The gossip verdict (`cirrus_client_executor_gossip::Action`). -/
inductive Action where
  | Empty
  | RebroadcastBundle
  | RebroadcastExecutionReceipt
deriving DecidableEq

/-- The phase of execution being fraud-proven (`sp_executor::ExecutionPhase`). -/
inductive ExecutionPhase where
  | InitializeBlock (call_data : List Nat)
  | ApplyExtrinsic (call_data : List Nat)
  | FinalizeBlock
deriving DecidableEq

/-- A fraud proof (`sp_executor::FraudProof`). -/
structure FraudProof where
  parent_number : Nat
  parent_hash : Hash
  pre_state_root : Hash
  post_state_root : Hash
  proof : StorageProof
  execution_phase : ExecutionPhase
deriving DecidableEq

/-- A bundle equivocation proof; the source only ever builds `dummy_at(slot)`. -/
structure BundleEquivocationProof where
  slot_number : Nat
deriving DecidableEq

/-- The (field-less) invalid transaction proof of the source. -/
inductive InvalidTransactionProof where
  | mk
deriving DecidableEq

/-- Error type for cirrus gossip handling (`GossipMessageError` in the source). -/
inductive GossipMessageError where
  | BundleEquivocation
  | InvalidStateRootType
  | InvalidExtrinsicIndex (index : Nat) (max : Nat)
  | Client (e : BlockchainError)
  | RuntimeApi (e : ApiError)
  | RecvError
  | SendError
  | BadBundleSignature
  | InvalidBundleAuthor (got : ExecutorId) (expected : ExecutorId)
  | BadExecutionReceiptSignature
  | InvalidExecutionReceiptAuthor (got : ExecutorId) (expected : ExecutorId)
deriving DecidableEq

/-- The in-memory overlay ("delta") handed to the execution prover, identified by the
parent block it was built on and the list of extrinsics applied over that parent state. -/
structure Overlay where
  parent_hash : Hash
  applied : List Extrinsic
deriving DecidableEq

/-- Storage changes extracted from the block builder: the overlay transaction and
its storage root. -/
structure StorageChanges where
  transaction : Overlay
  transaction_storage_root : Hash
deriving DecidableEq

/-- One invocation of `ExecutionProver::prove_execution`: the block id proven at,
the execution phase, and the optional `(delta, post_delta_root)` pair. -/
structure ProveCall where
  at_hash : Hash
  phase : ExecutionPhase
  delta : Option (Overlay × Hash)
deriving DecidableEq

/-- A fraud proof submitted to the primary chain, paired with the prover invocation
that produced its storage proof. -/
structure SubmittedProof where
  fraud_proof : FraudProof
  prove_call : ProveCall
deriving DecidableEq

/-- SCALE encoding of an extrinsic, abstracted: an injective byte-blob function. -/
def encodeExtrinsic (e : Extrinsic) : List Nat := [e]

/-- SCALE encoding of a header, abstracted: an injective byte-blob function listing
every field. -/
def encodeHeader (h : Header) : List Nat :=
  [h.number, h.extrinsics_root, h.state_root, h.parent_hash, h.digest]

/-- The modulus of the machine word used for `usize` arithmetic in the source. -/
def USIZE_LIMIT : Nat := 2 ^ 64

/-- Modelled from the spec: `aux_schema::target_receipt_is_pruned` lives in the
`aux_schema` module, which is not among the sources; per the spec the predicate
returns true iff `best_exec_number - target_primary_number > PRUNING_DEPTH` (saturating
unsigned subtraction), with the pruning depth an implementation-defined constant taken
here as a parameter. -/
def target_receipt_is_pruned (pruning_depth best_exec_number target_primary_number : Nat) : Bool :=
  best_exec_number - target_primary_number > pruning_depth

/-- The environment of the gossip handler: the external collaborators of the
`Executor` (signature scheme, hashing, primary-chain runtime api, secondary client,
receipt store, execution prover, transaction pool). -/
structure Env where
  verify : ExecutorId → Hash → Signature → Bool
  receipt_hash : ExecutionReceipt → Hash
  bundle_hash : Bundle → Hash
  executor_id : Hash → Except ApiError ExecutorId
  best_hash : Hash
  best_execution_chain_number : Hash → Except ApiError Nat
  pruning_depth : Nat
  load_receipt : Hash → Except BlockchainError (Option ExecutionReceipt)
  wait_result : Except GossipMessageError ExecutionReceipt
  headers : Hash → Option Header
  header_hash : Header → Hash
  body : Hash → Option (List Extrinsic)
  overlay_root : Hash → List Extrinsic → Hash
  prove : ProveCall → Except GossipMessageError StorageProof
  hash_of : Extrinsic → Hash
  ready_transaction : Hash → Bool

/-- Modelled from the spec: `cirrus_block_builder::BlockBuilder::prepare_storage_changes_before k`
is not among the sources; per the spec it builds the block on the given parent up
through extrinsic `k − 1`, i.e. the produced overlay is the parent state plus the first
`k` extrinsics of the body, together with the storage root of that overlay. -/
def prepare_storage_changes_before (env : Env) (parent_hash : Hash) (body : List Extrinsic)
    (k : Nat) : StorageChanges :=
  { transaction := { parent_hash := parent_hash, applied := body.take k },
    transaction_storage_root := env.overlay_root parent_hash (body.take k) }

/-- Modelled from the spec: `prepare_storage_changes_before_finalize_block` yields the
pre-finalize overlay, i.e. the overlay after applying all extrinsics of the body. -/
def prepare_storage_changes_before_finalize_block (env : Env) (parent_hash : Hash)
    (body : List Extrinsic) : StorageChanges :=
  prepare_storage_changes_before env parent_hash body body.length

/-- Embedding of `Executor::create_extrinsic_execution_proof`: fetch the block body at
`current_hash`, pick the extrinsic at `extrinsic_index` (reporting
`InvalidExtrinsicIndex {index, max = len - 1}` when out of bounds, with the source's
unchecked `usize` subtraction modelled as wrapping arithmetic), build up the overlay
before that extrinsic and invoke the prover on the `ApplyExtrinsic` phase with that
delta.  Also returns the prover invocation itself so that theorems can speak about it. -/
def create_extrinsic_execution_proof (env : Env) (extrinsic_index : Nat)
    (parent_header : Header) (current_hash : Hash) :
    Except GossipMessageError (StorageProof × ExecutionPhase × ProveCall) :=
  match env.body current_hash with
  | none => .error (.Client (.Backend current_hash))
  | some extrinsics =>
    match extrinsics.get? extrinsic_index with
    | none =>
      .error (.InvalidExtrinsicIndex extrinsic_index
        ((extrinsics.length + (USIZE_LIMIT - 1)) % USIZE_LIMIT))
    | some extrinsic =>
      let execution_phase := ExecutionPhase.ApplyExtrinsic (encodeExtrinsic extrinsic)
      let storage_changes :=
        prepare_storage_changes_before env (env.header_hash parent_header) extrinsics
          extrinsic_index
      let call : ProveCall :=
        { at_hash := env.header_hash parent_header,
          phase := execution_phase,
          delta := some (storage_changes.transaction, storage_changes.transaction_storage_root) }
      match env.prove call with
      | .error e => .error e
      | .ok proof => .ok (proof, execution_phase, call)

/-- The local-receipt acquisition step of `on_execution_receipt`: look the receipt up in
the aux store; a backend error propagates as a `Client` error; when absent, the handler
blocks on the wait task's channel, whose delivered result is `env.wait_result`. -/
def acquire_local_receipt (env : Env) (h : Hash) :
    Except GossipMessageError ExecutionReceipt :=
  match env.load_receipt h with
  | .error e => .error (.Client e)
  | .ok (some r) => .ok r
  | .ok none => env.wait_result

/-- The trace comparison of `on_execution_receipt`: zip the local and the remote trace
(truncating at the shorter) and return the first index at which they differ, together
with the local root there. -/
def findMismatch : List Hash → List Hash → Option (Nat × Hash)
  | l :: ls, r :: rs =>
    if l ≠ r then some (0, l)
    else (findMismatch ls rs).map (fun p => (p.1 + 1, p.2))
  | _, _ => none

/-- Fraud-proof synthesis of `on_execution_receipt` once the first trace divergence is
located: index 0 is an `InitializeBlock` proof with no delta; the last index a
`FinalizeBlock` proof with the pre-finalize overlay as delta; anything else an
`ApplyExtrinsic` proof for extrinsic `i − 1`.  Returns the fraud proof together with
the prover invocation. -/
def build_fraud_proof (env : Env) (er : ExecutionReceipt) (local_receipt : ExecutionReceipt)
    (local_trace_idx : Nat) (local_root : Hash) (parent_header : Header) :
    Except GossipMessageError SubmittedProof :=
  let block_number := er.primary_number
  if local_trace_idx = 0 then
    let pre_state_root := parent_header.state_root
    let post_state_root := local_root
    let new_header : Header :=
      { number := block_number, extrinsics_root := 0, state_root := 0,
        parent_hash := env.header_hash parent_header, digest := 0 }
    let execution_phase := ExecutionPhase.InitializeBlock (encodeHeader new_header)
    let call : ProveCall :=
      { at_hash := env.header_hash parent_header, phase := execution_phase, delta := none }
    match env.prove call with
    | .error e => .error e
    | .ok proof =>
      .ok { fraud_proof :=
              { parent_number := parent_header.number,
                parent_hash := env.header_hash parent_header,
                pre_state_root := pre_state_root, post_state_root := post_state_root,
                proof := proof, execution_phase := execution_phase },
            prove_call := call }
  else if local_trace_idx = local_receipt.trace.length - 1 then
    let pre_state_root := er.trace.getD (local_trace_idx - 1) 0
    let post_state_root := local_root
    let execution_phase := ExecutionPhase.FinalizeBlock
    match env.body er.secondary_hash with
    | none => .error (.Client (.Backend er.secondary_hash))
    | some body =>
      let storage_changes :=
        prepare_storage_changes_before_finalize_block env (env.header_hash parent_header) body
      let call : ProveCall :=
        { at_hash := env.header_hash parent_header, phase := execution_phase,
          delta := some (storage_changes.transaction, storage_changes.transaction_storage_root) }
      match env.prove call with
      | .error e => .error e
      | .ok proof =>
        .ok { fraud_proof :=
                { parent_number := parent_header.number,
                  parent_hash := env.header_hash parent_header,
                  pre_state_root := pre_state_root, post_state_root := post_state_root,
                  proof := proof, execution_phase := execution_phase },
              prove_call := call }
  else
    let pre_state_root := er.trace.getD (local_trace_idx - 1) 0
    let post_state_root := local_root
    match create_extrinsic_execution_proof env (local_trace_idx - 1) parent_header
        er.secondary_hash with
    | .error e => .error e
    | .ok (proof, execution_phase, call) =>
      .ok { fraud_proof :=
              { parent_number := parent_header.number,
                parent_hash := env.header_hash parent_header,
                pre_state_root := pre_state_root, post_state_root := post_state_root,
                proof := proof, execution_phase := execution_phase },
            prove_call := call }

/-- Embedding of `GossipMessageHandler::on_execution_receipt`.  Besides the gossip
verdict it returns the fraud proof submitted to the primary chain, when one is. -/
def on_execution_receipt (env : Env) (s : SignedExecutionReceipt) :
    Except GossipMessageError (Action × Option SubmittedProof) :=
  let er := s.execution_receipt
  if env.verify s.signer (env.receipt_hash er) s.signature then
    match env.executor_id er.primary_hash with
    | .error e => .error (.RuntimeApi e)
    | .ok expected_executor_id =>
      if s.signer ≠ expected_executor_id then
        .error (.InvalidExecutionReceiptAuthor s.signer expected_executor_id)
      else
        match env.best_execution_chain_number env.best_hash with
        | .error e => .error (.RuntimeApi e)
        | .ok best_execution_chain_number =>
          if target_receipt_is_pruned env.pruning_depth best_execution_chain_number
              er.primary_number then
            .ok (.Empty, none)
          else
            match acquire_local_receipt env er.secondary_hash with
            | .error e => .error e
            | .ok local_receipt =>
              match findMismatch local_receipt.trace er.trace with
              | none => .ok (.RebroadcastExecutionReceipt, none)
              | some (local_trace_idx, local_root) =>
                match env.headers er.secondary_hash with
                | none => .error (.Client (.Backend er.secondary_hash))
                | some header =>
                  match env.headers header.parent_hash with
                  | none => .error (.Client (.Backend header.parent_hash))
                  | some parent_header =>
                    match build_fraud_proof env er local_receipt local_trace_idx local_root
                        parent_header with
                    | .error e => .error e
                    | .ok submitted => .ok (.Empty, some submitted)
  else .error .BadExecutionReceiptSignature

/-- The client state observed by one iteration of `wait_for_local_future_receipt`:
the aux receipt store, the best secondary number, and the canonical block-hash-by-number
lookup (`expect_block_hash_from_id`). -/
structure ClientState where
  load_receipt : Hash → Except BlockchainError (Option ExecutionReceipt)
  best_number : Nat
  hash_at : Nat → Except BlockchainError Hash

instance {ε α : Type} [DecidableEq ε] [DecidableEq α] : DecidableEq (Except ε α) := fun x y =>
  match x, y with
  | .ok a, .ok b =>
    if h : a = b then .isTrue (by rw [h]) else .isFalse (fun hh => h (Except.ok.inj hh))
  | .ok _, .error _ => .isFalse (fun hh => Except.noConfusion hh)
  | .error _, .ok _ => .isFalse (fun hh => Except.noConfusion hh)
  | .error a, .error b =>
    if h : a = b then .isTrue (by rw [h]) else .isFalse (fun hh => h (Except.error.inj hh))

/-- The outcome of one iteration of the `wait_for_local_future_receipt` loop body:
send a result over the channel and return, abort the task with an error (a `?` on the
hash-by-number or store lookup), or sleep the given number of milliseconds and poll
again. -/
inductive WaitStep where
  | send (r : Except BlockchainError ExecutionReceipt)
  | abort (e : GossipMessageError)
  | sleep (ms : Nat)
deriving DecidableEq

/-- One iteration of `Executor::wait_for_local_future_receipt` for the secondary block
`h` at height `n`: a stored receipt for `h` is sent at once; with the receipt absent,
if the client's best number is at least `n` the receipt loaded for the canonical block
hash at height `n` is sent (its absence sent as a backend error); otherwise the task
sleeps 100 ms and polls again.  A store error for `h` is sent; errors of the
by-height lookups abort the task. -/
def wait_for_local_future_receipt_step (st : ClientState) (h : Hash) (n : Nat) : WaitStep :=
  match st.load_receipt h with
  | .ok (some local_receipt) => .send (.ok local_receipt)
  | .ok none =>
    if st.best_number ≥ n then
      match st.hash_at n with
      | .error e => .abort (.Client e)
      | .ok local_block_hash =>
        match st.load_receipt local_block_hash with
        | .error e => .abort (.Client e)
        | .ok (some local_receipt) => .send (.ok local_receipt)
        | .ok none => .send (.error (.Backend local_block_hash))
    else .sleep 100
  | .error e => .send (.error e)

/-- The whole `wait_for_local_future_receipt` loop, run against the stream of client
states observed at successive poll iterations, with fuel: `none` means the loop was
still polling when the fuel ran out. -/
def wait_for_local_future_receipt (states : Nat → ClientState) (h : Hash) (n : Nat) :
    Nat → Option (Except BlockchainError ExecutionReceipt ⊕ GossipMessageError)
  | 0 => none
  | fuel + 1 =>
    match wait_for_local_future_receipt_step (states 0) h n with
    | .send r => some (.inl r)
    | .abort e => some (.inr e)
    | .sleep _ => wait_for_local_future_receipt (fun t => states (t + 1)) h n fuel

/-- A primary-chain block descriptor (`worker::BlockInfo`). -/
structure BlockInfo where
  hash : Hash
  parent_hash : Hash
  number : Nat
deriving DecidableEq

/-- Opaque `sp_consensus::Error` values. -/
abbrev ConsensusError := Nat

/-- The environment of `active_leaves`: the select-chain's best block and leaf set and
the primary client's number/header lookups (`.ok()??` lookups collapse errors and
absence into `none`; a failing `leaves()` call is already collapsed into the empty
list by `unwrap_or_default`). -/
structure LeavesEnv where
  best_chain : Except ConsensusError Header
  leaves : List Hash
  number_of : Hash → Option Nat
  header_of : Hash → Option Header
  head_hash : Header → Hash

/-- The comparison used by `sort_by_key(|b| b.number)`. -/
def byNumber (a b : BlockInfo) : Prop := a.number ≤ b.number

instance : DecidableRel byNumber := fun a b => Nat.decLe a.number b.number

/-- Stable ascending sort by block number, modelling `Vec::sort_by_key` (which is a
stable sort). -/
def sortByNumber (l : List BlockInfo) : List BlockInfo := List.insertionSort byNumber l

/-- The leaf filter of `active_leaves`: keep leaves with a known number that is at
least `best.number - 1` (saturating), drop the best hash itself, and resolve each
survivor's parent hash through its header. -/
def filteredLeaves (env : LeavesEnv) (best_block : Header) : List BlockInfo :=
  env.leaves.filterMap (fun hash =>
    match env.number_of hash with
    | none => none
    | some number =>
      if number < best_block.number - 1 ∨ hash = env.head_hash best_block then none
      else
        match env.header_of hash with
        | none => none
        | some h => some { hash := hash, parent_hash := h.parent_hash, number := number })

/-- The maximum number of active leaves forwarded on startup. -/
def MAX_ACTIVE_LEAVES : Nat := 4

/-- Embedding of `active_leaves`: empty at genesis; otherwise filter the leaves,
sort ascending by number, append the best block, then return the reversal truncated
to `MAX_ACTIVE_LEAVES`. -/
def active_leaves (env : LeavesEnv) : Except ConsensusError (List BlockInfo) :=
  match env.best_chain with
  | .error e => .error e
  | .ok best_block =>
    if best_block.number = 0 then .ok []
    else
      let leaves := sortByNumber (filteredLeaves env best_block)
      let leaves := leaves ++
        [{ hash := env.head_hash best_block, parent_hash := best_block.parent_hash,
           number := best_block.number }]
      .ok (leaves.reverse.take MAX_ACTIVE_LEAVES)

/-- Embedding of `GossipMessageHandler::on_bundle`.  The equivocation and the
duplicate checks are the source's constant-false stubs.  Besides the verdict it
returns the invalid-transaction proofs submitted for pool-unknown extrinsics. -/
def on_bundle (env : Env) (sb : SignedBundle) :
    Except GossipMessageError (Action × List InvalidTransactionProof) :=
  let bundle_is_an_equivocation := false
  if bundle_is_an_equivocation then .error .BundleEquivocation
  else
    let bundle_exists := false
    if bundle_exists then .ok (.Empty, [])
    else
      let primary_hash := sb.bundle.header.primary_hash
      if env.verify sb.signer (env.bundle_hash sb.bundle) sb.signature then
        match env.executor_id primary_hash with
        | .error e => .error (.RuntimeApi e)
        | .ok expected_executor_id =>
          if sb.signer ≠ expected_executor_id then
            .error (.InvalidBundleAuthor sb.signer expected_executor_id)
          else
            let proofs := sb.bundle.extrinsics.filterMap (fun extrinsic =>
              if env.ready_transaction (env.hash_of extrinsic) then none
              else some InvalidTransactionProof.mk)
            .ok (.RebroadcastBundle, proofs)
      else .error .BadBundleSignature

/-! Basic facts about the trace comparison. -/

theorem findMismatch_lt {l r : List Hash} {i : Nat} {x : Hash}
    (h : findMismatch l r = some (i, x)) : i < l.length ∧ i < r.length := by
  induction l generalizing r i x with
  | nil => simp [findMismatch] at h
  | cons a ls ih =>
    cases r with
    | nil => simp [findMismatch] at h
    | cons b rs =>
      by_cases hab : a = b
      · simp only [findMismatch, hab, ne_eq, not_true_eq_false, if_neg, ite_false,
          not_false_eq_true, Option.map_eq_some'] at h
        obtain ⟨⟨i', x'⟩, hp, hix⟩ := h
        have hi : i' + 1 = i := congrArg Prod.fst hix
        obtain ⟨h1, h2⟩ := ih hp
        subst hi
        constructor <;> simpa using Nat.succ_lt_succ (by assumption)
      · simp only [findMismatch, hab, ne_eq, not_false_eq_true, if_true, ite_true,
          Option.some.injEq, Prod.mk.injEq] at h
        obtain ⟨hi, hx⟩ := h
        subst hi
        constructor <;> simp

theorem findMismatch_get_local {l r : List Hash} {i : Nat} {x : Hash}
    (h : findMismatch l r = some (i, x)) : l.get? i = some x := by
  induction l generalizing r i x with
  | nil => simp [findMismatch] at h
  | cons a ls ih =>
    cases r with
    | nil => simp [findMismatch] at h
    | cons b rs =>
      by_cases hab : a = b
      · simp only [findMismatch, hab, ne_eq, not_true_eq_false, ite_false,
          Option.map_eq_some'] at h
        obtain ⟨⟨i', x'⟩, hp, hix⟩ := h
        have hi : i' + 1 = i := congrArg Prod.fst hix
        have hx : x' = x := congrArg Prod.snd hix
        subst hi
        subst hx
        simpa using ih hp
      · simp only [findMismatch, hab, ne_eq, not_false_eq_true, ite_true,
          Option.some.injEq, Prod.mk.injEq] at h
        obtain ⟨hi, hx⟩ := h
        subst hi; subst hx
        simp

theorem findMismatch_eq_before {l r : List Hash} {i : Nat} {x : Hash}
    (h : findMismatch l r = some (i, x)) : ∀ j, j < i → l.get? j = r.get? j := by
  induction l generalizing r i x with
  | nil => simp [findMismatch] at h
  | cons a ls ih =>
    cases r with
    | nil => simp [findMismatch] at h
    | cons b rs =>
      by_cases hab : a = b
      · simp only [findMismatch, hab, ne_eq, not_true_eq_false, ite_false,
          Option.map_eq_some'] at h
        obtain ⟨⟨i', x'⟩, hp, hix⟩ := h
        have hi : i' + 1 = i := congrArg Prod.fst hix
        subst hi
        intro j hj
        cases j with
        | zero => simp [hab]
        | succ j' => simpa using ih hp j' (Nat.lt_of_succ_lt_succ hj)
      · simp only [findMismatch, hab, ne_eq, not_false_eq_true, ite_true,
          Option.some.injEq, Prod.mk.injEq] at h
        obtain ⟨hi, hx⟩ := h
        subst hi
        intro j hj
        exact absurd hj (Nat.not_lt_zero j)

theorem findMismatch_none {l r : List Hash} (h : findMismatch l r = none) :
    ∀ j, j < l.length → j < r.length → l.get? j = r.get? j := by
  induction l generalizing r with
  | nil => intro j hj; simp at hj
  | cons a ls ih =>
    cases r with
    | nil => intro j _ hj; simp at hj
    | cons b rs =>
      by_cases hab : a = b
      · simp only [findMismatch, hab, ne_eq, not_true_eq_false, ite_false,
          Option.map_eq_none'] at h
        intro j hjl hjr
        cases j with
        | zero => simp [hab]
        | succ j' =>
          simpa using ih h j' (Nat.lt_of_succ_lt_succ hjl) (Nat.lt_of_succ_lt_succ hjr)
      · simp [findMismatch, hab] at h

theorem getD_of_get? {l : List Hash} {n : Nat} {a : Hash} (h : l.get? n = some a) (d : Hash) :
    l.getD n d = a := by
  have hg : l[n]? = some a := by rw [← List.get?_eq_getElem?]; exact h
  simp [List.getD, hg]

/-! Concrete data used by the witnesses and counterexamples. -/

/-- A concrete executor environment; individual witnesses adjust single fields. -/
def baseEnv : Env :=
  { verify := fun _ _ _ => true,
    receipt_hash := fun _ => 0,
    bundle_hash := fun _ => 0,
    executor_id := fun _ => .ok 7,
    best_hash := 0,
    best_execution_chain_number := fun _ => .ok 0,
    pruning_depth := 256,
    load_receipt := fun _ => .ok none,
    wait_result := .error .RecvError,
    headers := fun _ => none,
    header_hash := fun h => h.digest,
    body := fun _ => none,
    overlay_root := fun _ _ => 0,
    prove := fun _ => .ok 0,
    hash_of := fun _ => 0,
    ready_transaction := fun _ => true }

/-- A concrete signed bundle. -/
def sbC5 : SignedBundle :=
  { bundle := { header := { slot_number := 0, primary_hash := 3, receipts := [] },
                extrinsics := [] },
    signature := 0, signer := 7 }

/-- C5: if `on_bundle` returns `RebroadcastBundle`, the signature verified over the
bundle hash under the signer's key and the signer equals the executor id returned by
the primary runtime at the bundle header's primary hash. -/
theorem on_bundle_rebroadcast_signature_and_author (env : Env) (sb : SignedBundle)
    (ps : List InvalidTransactionProof)
    (h : on_bundle env sb = .ok (.RebroadcastBundle, ps)) :
    env.verify sb.signer (env.bundle_hash sb.bundle) sb.signature = true ∧
    env.executor_id sb.bundle.header.primary_hash = .ok sb.signer := by
  unfold on_bundle at h
  split at h
  · rename_i hv
    simp only [Bool.false_eq_true, if_false] at h
    split at h
    · simp at h
    · rename_i expected heq
      split at h
      · simp at h
      · rename_i hne
        exact ⟨hv, by rw [heq, not_not.mp hne]⟩
  · simp at h

/-- Witness for C5 at a concrete bundle and environment. -/
theorem on_bundle_rebroadcast_signature_and_author_witness :
    baseEnv.verify sbC5.signer (baseEnv.bundle_hash sbC5.bundle) sbC5.signature = true ∧
    baseEnv.executor_id sbC5.bundle.header.primary_hash = .ok sbC5.signer :=
  on_bundle_rebroadcast_signature_and_author baseEnv sbC5 [] (by decide)

/-- C10: `on_bundle` never answers `Ok(Empty)`: both the equivocation and the
duplicate checks are the source's constant-false stubs, so every non-error call
returns `Ok(RebroadcastBundle)`. -/
theorem on_bundle_ok_is_rebroadcast (env : Env) (sb : SignedBundle)
    (r : Action × List InvalidTransactionProof) (h : on_bundle env sb = .ok r) :
    r.1 = Action.RebroadcastBundle := by
  unfold on_bundle at h
  split at h
  · simp only [Bool.false_eq_true, if_false] at h
    split at h
    · simp at h
    · split at h
      · simp at h
      · obtain rfl := Except.ok.inj h
        rfl
  · simp at h

/-- Witness for C10 at a concrete bundle and environment. -/
theorem on_bundle_ok_is_rebroadcast_witness :
    (Action.RebroadcastBundle, ([] : List InvalidTransactionProof)).1 =
      Action.RebroadcastBundle :=
  on_bundle_ok_is_rebroadcast baseEnv sbC5 (Action.RebroadcastBundle, []) (by decide)

/-- C6: a signed receipt passing the signature and author checks whose target receipt
is pruned makes `on_execution_receipt` return `Ok(Empty)` with no fraud proof
submitted. -/
theorem on_execution_receipt_pruned_empty (env : Env) (s : SignedExecutionReceipt)
    (best : Nat)
    (hsig : env.verify s.signer (env.receipt_hash s.execution_receipt) s.signature = true)
    (hauth : env.executor_id s.execution_receipt.primary_hash = .ok s.signer)
    (hbest : env.best_execution_chain_number env.best_hash = .ok best)
    (hpruned : target_receipt_is_pruned env.pruning_depth best
      s.execution_receipt.primary_number = true) :
    on_execution_receipt env s = .ok (.Empty, none) := by
  simp only [on_execution_receipt, hsig, hauth, hbest, hpruned, if_true, ne_eq,
    not_true_eq_false, ite_false, ite_true]

/-- The environment of the C6 witness: the primary chain's best execution chain
number is 1000. -/
def envC6 : Env := { baseEnv with best_execution_chain_number := fun _ => .ok 1000 }

/-- The receipt of the C6 witness: primary number 10, far below the horizon. -/
def sC6 : SignedExecutionReceipt :=
  { execution_receipt :=
      { primary_number := 10, primary_hash := 1, secondary_hash := 42, trace := [1] },
    signature := 0, signer := 7 }

/-- Witness for C6 at a concrete receipt and environment. -/
theorem on_execution_receipt_pruned_empty_witness :
    on_execution_receipt envC6 sC6 = .ok (.Empty, none) :=
  on_execution_receipt_pruned_empty envC6 sC6 1000 rfl rfl rfl (by decide)

/-- The locally stored receipt of the C1 data: its trace has a single root. -/
def rC1local : ExecutionReceipt :=
  { primary_number := 1, primary_hash := 5, secondary_hash := 42, trace := [10] }

/-- The C1 environment: the aux store holds `rC1local` for secondary hash 42. -/
def envC1 : Env :=
  { baseEnv with
    load_receipt := fun h => if h = 42 then .ok (some rC1local) else .ok none }

/-- The C1 remote receipt: its trace extends the local one by one extra root. -/
def sC1 : SignedExecutionReceipt :=
  { execution_receipt :=
      { primary_number := 1, primary_hash := 5, secondary_hash := 42, trace := [10, 11] },
    signature := 0, signer := 7 }

/-- C1 counterexample: a remote receipt whose trace strictly extends the local trace
is rebroadcast even though the two traces do not have the same length — the empty
length guard of the source never acts. -/
theorem on_execution_receipt_rebroadcast_unequal_lengths :
    on_execution_receipt envC1 sC1 = .ok (.RebroadcastExecutionReceipt, none) ∧
    acquire_local_receipt envC1 sC1.execution_receipt.secondary_hash = .ok rC1local ∧
    rC1local.trace.length ≠ sC1.execution_receipt.trace.length :=
  ⟨by decide, by decide, by decide⟩

/-- C1 amended: if `on_execution_receipt` returns `RebroadcastExecutionReceipt`, the
local receipt obtained for the remote receipt's secondary hash agrees with the remote
trace at every index below the shorter of the two lengths (the traces need not have
equal length). -/
theorem on_execution_receipt_rebroadcast_common_prefix_eq (env : Env)
    (s : SignedExecutionReceipt) (o : Option SubmittedProof)
    (h : on_execution_receipt env s = .ok (.RebroadcastExecutionReceipt, o)) :
    ∃ L, acquire_local_receipt env s.execution_receipt.secondary_hash = .ok L ∧
      ∀ j, j < L.trace.length → j < s.execution_receipt.trace.length →
        L.trace.get? j = s.execution_receipt.trace.get? j := by
  unfold on_execution_receipt at h
  cases hv : env.verify s.signer (env.receipt_hash s.execution_receipt) s.signature with
  | false => simp [hv] at h
  | true =>
    simp only [hv, if_true] at h
    cases he : env.executor_id s.execution_receipt.primary_hash with
    | error e => simp [he] at h
    | ok expected =>
      simp only [he] at h
      by_cases hs : s.signer = expected
      · simp only [hs, ne_eq, not_true_eq_false, if_false, ite_false] at h
        cases hb : env.best_execution_chain_number env.best_hash with
        | error e => simp [hb] at h
        | ok best =>
          simp only [hb] at h
          cases hp : target_receipt_is_pruned env.pruning_depth best
              s.execution_receipt.primary_number with
          | true => simp [hp] at h
          | false =>
            simp only [hp, Bool.false_eq_true, if_false, ite_false] at h
            cases ha : acquire_local_receipt env s.execution_receipt.secondary_hash with
            | error e => simp [ha] at h
            | ok L =>
              simp only [ha] at h
              cases hm : findMismatch L.trace s.execution_receipt.trace with
              | none => exact ⟨L, rfl, findMismatch_none hm⟩
              | some p =>
                obtain ⟨i, x⟩ := p
                simp only [hm] at h
                cases hh : env.headers s.execution_receipt.secondary_hash with
                | none => simp [hh] at h
                | some header =>
                  simp only [hh] at h
                  cases hph : env.headers header.parent_hash with
                  | none => simp [hph] at h
                  | some parent_header =>
                    simp only [hph] at h
                    cases hbp : build_fraud_proof env s.execution_receipt L i x
                        parent_header with
                    | error e => simp [hbp] at h
                    | ok submitted => simp [hbp] at h
      · simp [hs] at h

/-- Witness for the amended C1 at a concrete receipt and environment. -/
theorem on_execution_receipt_rebroadcast_common_prefix_eq_witness :
    ∃ L, acquire_local_receipt envC1 sC1.execution_receipt.secondary_hash = .ok L ∧
      ∀ j, j < L.trace.length → j < sC1.execution_receipt.trace.length →
        L.trace.get? j = sC1.execution_receipt.trace.get? j :=
  on_execution_receipt_rebroadcast_common_prefix_eq envC1 sC1 none (by decide)

/-- Reduction helper: once the signature, author and pruning checks pass, the local
receipt is acquired and a first trace divergence is located, `on_execution_receipt`
is fraud-proof synthesis followed by an `Empty` verdict. -/
theorem on_execution_receipt_divergence (env : Env) (s : SignedExecutionReceipt)
    (L : ExecutionReceipt) (best i : Nat) (x : Hash) (header parent_header : Header)
    (hsig : env.verify s.signer (env.receipt_hash s.execution_receipt) s.signature = true)
    (hauth : env.executor_id s.execution_receipt.primary_hash = .ok s.signer)
    (hbest : env.best_execution_chain_number env.best_hash = .ok best)
    (hpruned : target_receipt_is_pruned env.pruning_depth best
      s.execution_receipt.primary_number = false)
    (hacq : acquire_local_receipt env s.execution_receipt.secondary_hash = .ok L)
    (hmm : findMismatch L.trace s.execution_receipt.trace = some (i, x))
    (hH : env.headers s.execution_receipt.secondary_hash = some header)
    (hHp : env.headers header.parent_hash = some parent_header) :
    on_execution_receipt env s =
      (build_fraud_proof env s.execution_receipt L i x parent_header).map
        (fun sp => (Action.Empty, some sp)) := by
  unfold on_execution_receipt
  simp only [hsig, if_true, hauth, ne_eq, not_true_eq_false, if_false, ite_false, hbest,
    hpruned, Bool.false_eq_true, hacq, hmm, hH, hHp, ite_true]
  cases hbp : build_fraud_proof env s.execution_receipt L i x parent_header <;>
    simp [Except.map]

/-- C2: a first trace divergence at an inner index `i` (neither 0 nor the last local
index) yields a fraud proof in phase `ApplyExtrinsic` over the encoding of extrinsic
`i − 1` of the local block body, with pre-state root `local_trace[i − 1]`, post-state
root `local_trace[i]`, proven with the overlay of the block built up through extrinsic
`i − 2`. -/
theorem on_execution_receipt_apply_extrinsic_fraud_proof
    (env : Env) (s : SignedExecutionReceipt) (L : ExecutionReceipt) (best i : Nat)
    (x pre : Hash) (b : List Extrinsic) (ex : Extrinsic)
    (header parent_header : Header) (pf : StorageProof)
    (hsig : env.verify s.signer (env.receipt_hash s.execution_receipt) s.signature = true)
    (hauth : env.executor_id s.execution_receipt.primary_hash = .ok s.signer)
    (hbest : env.best_execution_chain_number env.best_hash = .ok best)
    (hpruned : target_receipt_is_pruned env.pruning_depth best
      s.execution_receipt.primary_number = false)
    (hacq : acquire_local_receipt env s.execution_receipt.secondary_hash = .ok L)
    (hmm : findMismatch L.trace s.execution_receipt.trace = some (i, x))
    (hi : 0 < i) (hlast : i < L.trace.length - 1)
    (hH : env.headers s.execution_receipt.secondary_hash = some header)
    (hHp : env.headers header.parent_hash = some parent_header)
    (hb : env.body s.execution_receipt.secondary_hash = some b)
    (hex : b.get? (i - 1) = some ex)
    (hpre : L.trace.get? (i - 1) = some pre)
    (hpf : env.prove
      { at_hash := env.header_hash parent_header,
        phase := .ApplyExtrinsic (encodeExtrinsic ex),
        delta := some
          ({ parent_hash := env.header_hash parent_header, applied := b.take (i - 1) },
            env.overlay_root (env.header_hash parent_header) (b.take (i - 1))) } = .ok pf) :
    on_execution_receipt env s = .ok (.Empty, some
      { fraud_proof :=
          { parent_number := parent_header.number,
            parent_hash := env.header_hash parent_header,
            pre_state_root := pre, post_state_root := x, proof := pf,
            execution_phase := .ApplyExtrinsic (encodeExtrinsic ex) },
        prove_call :=
          { at_hash := env.header_hash parent_header,
            phase := .ApplyExtrinsic (encodeExtrinsic ex),
            delta := some
              ({ parent_hash := env.header_hash parent_header, applied := b.take (i - 1) },
                env.overlay_root (env.header_hash parent_header) (b.take (i - 1))) } }) ∧
    L.trace.get? i = some x := by
  have hi0 : i ≠ 0 := Nat.pos_iff_ne_zero.mp hi
  have hne : i ≠ L.trace.length - 1 := Nat.ne_of_lt hlast
  have hepre : s.execution_receipt.trace.get? (i - 1) = some pre := by
    rw [← findMismatch_eq_before hmm (i - 1) (by omega)]
    exact hpre
  refine ⟨?_, findMismatch_get_local hmm⟩
  rw [on_execution_receipt_divergence env s L best i x header parent_header hsig hauth
    hbest hpruned hacq hmm hH hHp]
  unfold build_fraud_proof
  simp only [hi0, hne, if_false, ite_false]
  unfold create_extrinsic_execution_proof
  unfold prepare_storage_changes_before
  simp only [hb, hex, hpf, getD_of_get? hepre]
  simp [Except.map]

/-- The local receipt of the C2/C4 witnesses, stored for secondary hash 42. -/
def rC2local : ExecutionReceipt :=
  { primary_number := 1, primary_hash := 5, secondary_hash := 42, trace := [1, 2, 3, 4] }

/-- The secondary header of the C2/C4 witnesses (parent hash 41). -/
def hdrC2 : Header :=
  { number := 1, extrinsics_root := 0, state_root := 0, parent_hash := 41, digest := 42 }

/-- The parent header of the C2/C4 witnesses; its modelled hash (`digest`) is 41. -/
def hdrC2parent : Header :=
  { number := 0, extrinsics_root := 0, state_root := 77, parent_hash := 40, digest := 41 }

/-- The C2/C4 witness environment: local receipt, headers and a two-extrinsic body. -/
def envC2 : Env :=
  { baseEnv with
    load_receipt := fun h => if h = 42 then .ok (some rC2local) else .ok none,
    headers := fun h =>
      if h = 42 then some hdrC2 else if h = 41 then some hdrC2parent else none,
    body := fun h => if h = 42 then some [21, 22] else none }

/-- The C2 remote receipt: it disagrees with the local trace first at index 2. -/
def sC2 : SignedExecutionReceipt :=
  { execution_receipt :=
      { primary_number := 1, primary_hash := 5, secondary_hash := 42, trace := [1, 2, 9, 4] },
    signature := 0, signer := 7 }

/-- Witness for C2 at a concrete receipt and environment. -/
theorem on_execution_receipt_apply_extrinsic_fraud_proof_witness :
    on_execution_receipt envC2 sC2 = .ok (.Empty, some
      { fraud_proof :=
          { parent_number := hdrC2parent.number,
            parent_hash := envC2.header_hash hdrC2parent,
            pre_state_root := 2, post_state_root := 3, proof := 0,
            execution_phase := .ApplyExtrinsic (encodeExtrinsic 22) },
        prove_call :=
          { at_hash := envC2.header_hash hdrC2parent,
            phase := .ApplyExtrinsic (encodeExtrinsic 22),
            delta := some
              ({ parent_hash := envC2.header_hash hdrC2parent, applied := [21, 22].take 1 },
                envC2.overlay_root (envC2.header_hash hdrC2parent) ([21, 22].take 1)) } }) ∧
    rC2local.trace.get? 2 = some 3 :=
  on_execution_receipt_apply_extrinsic_fraud_proof envC2 sC2 rC2local 0 2 3 2 [21, 22] 22
    hdrC2 hdrC2parent 0 rfl rfl rfl (by decide) (by decide) (by decide) (by decide)
    (by decide) (by decide) (by decide) (by decide) (by decide) (by decide) rfl

/-- C3 amended: a first trace divergence at index 0 yields an `InitializeBlock` fraud
proof whose call data encodes a fresh header carrying the *receipt's* primary number
(decoded as the secondary block number) and the parent header's hash, all other fields
default; pre-state root is the parent's state root, post-state root is
`local_trace[0]`, and the prover is invoked with no delta. -/
theorem on_execution_receipt_initialize_block_fraud_proof
    (env : Env) (s : SignedExecutionReceipt) (L : ExecutionReceipt) (best : Nat)
    (x : Hash) (header parent_header : Header) (pf : StorageProof)
    (hsig : env.verify s.signer (env.receipt_hash s.execution_receipt) s.signature = true)
    (hauth : env.executor_id s.execution_receipt.primary_hash = .ok s.signer)
    (hbest : env.best_execution_chain_number env.best_hash = .ok best)
    (hpruned : target_receipt_is_pruned env.pruning_depth best
      s.execution_receipt.primary_number = false)
    (hacq : acquire_local_receipt env s.execution_receipt.secondary_hash = .ok L)
    (hmm : findMismatch L.trace s.execution_receipt.trace = some (0, x))
    (hH : env.headers s.execution_receipt.secondary_hash = some header)
    (hHp : env.headers header.parent_hash = some parent_header)
    (hpf : env.prove
      { at_hash := env.header_hash parent_header,
        phase := .InitializeBlock (encodeHeader
          { number := s.execution_receipt.primary_number, extrinsics_root := 0,
            state_root := 0, parent_hash := env.header_hash parent_header, digest := 0 }),
        delta := none } = .ok pf) :
    on_execution_receipt env s = .ok (.Empty, some
      { fraud_proof :=
          { parent_number := parent_header.number,
            parent_hash := env.header_hash parent_header,
            pre_state_root := parent_header.state_root, post_state_root := x, proof := pf,
            execution_phase := .InitializeBlock (encodeHeader
              { number := s.execution_receipt.primary_number, extrinsics_root := 0,
                state_root := 0, parent_hash := env.header_hash parent_header,
                digest := 0 }) },
        prove_call :=
          { at_hash := env.header_hash parent_header,
            phase := .InitializeBlock (encodeHeader
              { number := s.execution_receipt.primary_number, extrinsics_root := 0,
                state_root := 0, parent_hash := env.header_hash parent_header,
                digest := 0 }),
            delta := none } }) ∧
    L.trace.get? 0 = some x := by
  refine ⟨?_, findMismatch_get_local hmm⟩
  rw [on_execution_receipt_divergence env s L best 0 x header parent_header hsig hauth
    hbest hpruned hacq hmm hH hHp]
  unfold build_fraud_proof
  simp only [if_true, ite_true, eq_self_iff_true, hpf]
  simp [Except.map]

/-- The local receipt of the C3 data, stored for secondary hash 42. -/
def rC3local : ExecutionReceipt :=
  { primary_number := 1, primary_hash := 5, secondary_hash := 42, trace := [10, 11] }

/-- The secondary header of the C3 data: its own number is 5. -/
def hdrC3 : Header :=
  { number := 5, extrinsics_root := 0, state_root := 0, parent_hash := 41, digest := 42 }

/-- The parent header of the C3 data; its modelled hash (`digest`) is 41. -/
def hdrC3parent : Header :=
  { number := 4, extrinsics_root := 0, state_root := 77, parent_hash := 40, digest := 41 }

/-- The C3 environment. -/
def envC3 : Env :=
  { baseEnv with
    load_receipt := fun h => if h = 42 then .ok (some rC3local) else .ok none,
    headers := fun h =>
      if h = 42 then some hdrC3 else if h = 41 then some hdrC3parent else none }

/-- The C3 remote receipt: primary number 99 (unlike the local header's number 5) and
a divergence already at trace index 0. -/
def sC3 : SignedExecutionReceipt :=
  { execution_receipt :=
      { primary_number := 99, primary_hash := 5, secondary_hash := 42, trace := [20, 11] },
    signature := 0, signer := 7 }

/-- C3 counterexample: the `InitializeBlock` call data encodes a header whose number
is the remote receipt's primary number (99), not the number of the local header at the
receipt's secondary hash (5) — the two encodings differ. -/
theorem initialize_block_header_number_counterexample :
    on_execution_receipt envC3 sC3 = .ok (.Empty, some
      { fraud_proof :=
          { parent_number := 4, parent_hash := 41, pre_state_root := 77,
            post_state_root := 10, proof := 0,
            execution_phase := .InitializeBlock (encodeHeader
              { number := 99, extrinsics_root := 0, state_root := 0, parent_hash := 41,
                digest := 0 }) },
        prove_call :=
          { at_hash := 41,
            phase := .InitializeBlock (encodeHeader
              { number := 99, extrinsics_root := 0, state_root := 0, parent_hash := 41,
                digest := 0 }),
            delta := none } }) ∧
    envC3.headers sC3.execution_receipt.secondary_hash = some hdrC3 ∧
    hdrC3.number = 5 ∧
    ExecutionPhase.InitializeBlock (encodeHeader
      { number := 99, extrinsics_root := 0, state_root := 0, parent_hash := 41,
        digest := 0 }) ≠
      ExecutionPhase.InitializeBlock (encodeHeader
        { number := hdrC3.number, extrinsics_root := 0, state_root := 0, parent_hash := 41,
          digest := 0 }) :=
  ⟨by decide, by decide, by decide, by decide⟩

/-- Witness for the amended C3 at a concrete receipt and environment. -/
theorem on_execution_receipt_initialize_block_fraud_proof_witness :
    on_execution_receipt envC3 sC3 = .ok (.Empty, some
      { fraud_proof :=
          { parent_number := hdrC3parent.number,
            parent_hash := envC3.header_hash hdrC3parent,
            pre_state_root := hdrC3parent.state_root, post_state_root := 10, proof := 0,
            execution_phase := .InitializeBlock (encodeHeader
              { number := sC3.execution_receipt.primary_number, extrinsics_root := 0,
                state_root := 0, parent_hash := envC3.header_hash hdrC3parent,
                digest := 0 }) },
        prove_call :=
          { at_hash := envC3.header_hash hdrC3parent,
            phase := .InitializeBlock (encodeHeader
              { number := sC3.execution_receipt.primary_number, extrinsics_root := 0,
                state_root := 0, parent_hash := envC3.header_hash hdrC3parent,
                digest := 0 }),
            delta := none } }) ∧
    rC3local.trace.get? 0 = some 10 :=
  on_execution_receipt_initialize_block_fraud_proof envC3 sC3 rC3local 0 10 hdrC3
    hdrC3parent 0 rfl rfl rfl (by decide) (by decide) (by decide) (by decide) (by decide)
    (by decide)

/-- C4: a first trace divergence at the last local index (with at least two trace
entries) yields a `FinalizeBlock` fraud proof with pre-state root `local_trace[i − 1]`,
post-state root `local_trace[i]`, proven with the pre-finalize overlay obtained by
building the secondary block through all extrinsics of the body. -/
theorem on_execution_receipt_finalize_block_fraud_proof
    (env : Env) (s : SignedExecutionReceipt) (L : ExecutionReceipt) (best i : Nat)
    (x pre : Hash) (b : List Extrinsic) (header parent_header : Header) (pf : StorageProof)
    (hsig : env.verify s.signer (env.receipt_hash s.execution_receipt) s.signature = true)
    (hauth : env.executor_id s.execution_receipt.primary_hash = .ok s.signer)
    (hbest : env.best_execution_chain_number env.best_hash = .ok best)
    (hpruned : target_receipt_is_pruned env.pruning_depth best
      s.execution_receipt.primary_number = false)
    (hacq : acquire_local_receipt env s.execution_receipt.secondary_hash = .ok L)
    (hmm : findMismatch L.trace s.execution_receipt.trace = some (i, x))
    (hi : 0 < i) (hilast : i = L.trace.length - 1)
    (hH : env.headers s.execution_receipt.secondary_hash = some header)
    (hHp : env.headers header.parent_hash = some parent_header)
    (hb : env.body s.execution_receipt.secondary_hash = some b)
    (hpre : L.trace.get? (i - 1) = some pre)
    (hpf : env.prove
      { at_hash := env.header_hash parent_header, phase := .FinalizeBlock,
        delta := some ({ parent_hash := env.header_hash parent_header, applied := b },
          env.overlay_root (env.header_hash parent_header) b) } = .ok pf) :
    on_execution_receipt env s = .ok (.Empty, some
      { fraud_proof :=
          { parent_number := parent_header.number,
            parent_hash := env.header_hash parent_header,
            pre_state_root := pre, post_state_root := x, proof := pf,
            execution_phase := .FinalizeBlock },
        prove_call :=
          { at_hash := env.header_hash parent_header, phase := .FinalizeBlock,
            delta := some ({ parent_hash := env.header_hash parent_header, applied := b },
              env.overlay_root (env.header_hash parent_header) b) } }) ∧
    L.trace.get? i = some x := by
  have hi0 : i ≠ 0 := Nat.pos_iff_ne_zero.mp hi
  have hepre : s.execution_receipt.trace.get? (i - 1) = some pre := by
    rw [← findMismatch_eq_before hmm (i - 1) (by omega)]
    exact hpre
  refine ⟨?_, findMismatch_get_local hmm⟩
  rw [on_execution_receipt_divergence env s L best i x header parent_header hsig hauth
    hbest hpruned hacq hmm hH hHp]
  unfold build_fraud_proof
  rw [if_neg hi0, if_pos hilast]
  unfold prepare_storage_changes_before_finalize_block
  unfold prepare_storage_changes_before
  simp only [List.take_length, hb, hpf, getD_of_get? hepre]
  simp [Except.map]

/-- The C4 remote receipt: it disagrees with the local trace first at the last index. -/
def sC4 : SignedExecutionReceipt :=
  { execution_receipt :=
      { primary_number := 1, primary_hash := 5, secondary_hash := 42, trace := [1, 2, 3, 99] },
    signature := 0, signer := 7 }

/-- Witness for C4 at a concrete receipt and environment. -/
theorem on_execution_receipt_finalize_block_fraud_proof_witness :
    on_execution_receipt envC2 sC4 = .ok (.Empty, some
      { fraud_proof :=
          { parent_number := hdrC2parent.number,
            parent_hash := envC2.header_hash hdrC2parent,
            pre_state_root := 3, post_state_root := 4, proof := 0,
            execution_phase := .FinalizeBlock },
        prove_call :=
          { at_hash := envC2.header_hash hdrC2parent, phase := .FinalizeBlock,
            delta := some
              ({ parent_hash := envC2.header_hash hdrC2parent, applied := [21, 22] },
                envC2.overlay_root (envC2.header_hash hdrC2parent) [21, 22]) } }) ∧
    rC2local.trace.get? 3 = some 4 :=
  on_execution_receipt_finalize_block_fraud_proof envC2 sC4 rC2local 0 3 4 3 [21, 22]
    hdrC2 hdrC2parent 0 rfl rfl rfl (by decide) (by decide) (by decide) (by decide)
    (by decide) (by decide) (by decide) (by decide) (by decide) (by decide)

/-- The receipt stored at height 5's canonical hash (50) in the C7 state. -/
def rC7 : ExecutionReceipt :=
  { primary_number := 5, primary_hash := 5, secondary_hash := 50, trace := [1] }

/-- The C7 client state: best number is exactly 5, nothing stored for hash 42, and the
canonical block at height 5 is hash 50 whose receipt is `rC7`. -/
def stC7 : ClientState :=
  { load_receipt := fun h => if h = 50 then .ok (some rC7) else .ok none,
    best_number := 5,
    hash_at := fun _ => .ok 50 }

/-- C7 counterexample: with the receipt for the queried hash absent and the best
number merely *equal* to the receipt's height (not strictly past it), the loop body
already sends the canonical receipt at that height instead of polling again. -/
theorem wait_step_sends_at_equal_height :
    stC7.load_receipt 42 = .ok none ∧
    ¬ stC7.best_number > 5 ∧
    wait_for_local_future_receipt_step stC7 42 5 = .send (.ok rC7) ∧
    WaitStep.send (.ok rC7) ≠ WaitStep.sleep 100 :=
  ⟨by decide, by decide, by decide, by decide⟩

/-- C7 amended: with the receipt for `h` absent, one iteration of
`wait_for_local_future_receipt` sends the receipt loaded for the canonical block hash
at height `n` as soon as the best number has *reached or* advanced past `n`, and
sleeps 100 ms (polling again) while the best number is still below `n`. -/
theorem wait_step_send_or_poll (st : ClientState) (h : Hash) (n : Nat) (lh : Hash)
    (r : ExecutionReceipt) (habs : st.load_receipt h = .ok none) :
    (st.best_number ≥ n → st.hash_at n = .ok lh → st.load_receipt lh = .ok (some r) →
      wait_for_local_future_receipt_step st h n = .send (.ok r)) ∧
    (st.best_number < n → wait_for_local_future_receipt_step st h n = .sleep 100) := by
  constructor
  · intro hge hha hlr
    unfold wait_for_local_future_receipt_step
    simp only [habs, hha, hlr, if_pos hge]
  · intro hlt
    unfold wait_for_local_future_receipt_step
    simp only [habs, if_neg (Nat.not_le.mpr hlt)]

/-- Witness for the amended C7 at a concrete client state. -/
theorem wait_step_send_or_poll_witness :
    (stC7.best_number ≥ 5 → stC7.hash_at 5 = .ok 50 → stC7.load_receipt 50 = .ok (some rC7) →
      wait_for_local_future_receipt_step stC7 42 5 = .send (.ok rC7)) ∧
    (stC7.best_number < 5 → wait_for_local_future_receipt_step stC7 42 5 = .sleep 100) :=
  wait_step_send_or_poll stC7 42 5 50 rC7 (by decide)

/-- The C8 environment: the block body at hash 42 is empty, at hash 43 a singleton. -/
def envC8 : Env :=
  { baseEnv with
    body := fun h => if h = 42 then some [] else if h = 43 then some [5] else none }

/-- A header with every field zero, used as the parent in the C8 statements. -/
def hdrC8parent : Header :=
  { number := 0, extrinsics_root := 0, state_root := 0, parent_hash := 0, digest := 0 }

/-- C8 counterexample: with an empty block body, the source's unchecked
`extrinsics.len() - 1` underflows, so the reported `max` is the wrapped machine value
`2^64 - 1`, not the body length minus one (which would be `-1`). -/
theorem create_extrinsic_execution_proof_empty_body_wraps :
    create_extrinsic_execution_proof envC8 0 hdrC8parent 42 =
      .error (.InvalidExtrinsicIndex 0 (USIZE_LIMIT - 1)) ∧
    ((USIZE_LIMIT - 1 : Nat) : Int) ≠ ((([] : List Extrinsic).length : Int) - 1) :=
  ⟨by decide, by decide⟩

/-- C8 amended: for a *nonempty* block body (of machine-representable length), any
extrinsic index at or beyond the body length makes `create_extrinsic_execution_proof`
return `InvalidExtrinsicIndex {index, max = length - 1}` without reaching the prover. -/
theorem create_extrinsic_execution_proof_invalid_index (env : Env) (idx : Nat)
    (parent_header : Header) (current_hash : Hash) (b : List Extrinsic)
    (hb : env.body current_hash = some b) (hne : b ≠ [])
    (hlen : b.length < USIZE_LIMIT) (hidx : b.length ≤ idx) :
    create_extrinsic_execution_proof env idx parent_header current_hash =
      .error (.InvalidExtrinsicIndex idx (b.length - 1)) := by
  unfold create_extrinsic_execution_proof
  have hget : b.get? idx = none := by
    rw [List.get?_eq_getElem?]
    exact List.getElem?_eq_none hidx
  have h1 : 1 ≤ b.length := by
    cases b with
    | nil => exact absurd rfl hne
    | cons a l => simp
  have hU : USIZE_LIMIT = 18446744073709551616 := by norm_num [USIZE_LIMIT]
  rw [hU] at hlen
  have hmod : (b.length + (USIZE_LIMIT - 1)) % USIZE_LIMIT = b.length - 1 := by
    rw [hU]
    omega
  simp only [hb, hget, hmod]

/-- Witness for the amended C8: index 3 into the singleton body at hash 43. -/
theorem create_extrinsic_execution_proof_invalid_index_witness :
    create_extrinsic_execution_proof envC8 3 hdrC8parent 43 =
      .error (.InvalidExtrinsicIndex 3 (([5] : List Extrinsic).length - 1)) :=
  create_extrinsic_execution_proof_invalid_index envC8 3 hdrC8parent 43 [5] (by decide)
    (by decide) (by decide) (by decide)

instance : IsTotal BlockInfo byNumber := ⟨fun a b => Nat.le_total a.number b.number⟩

instance : IsTrans BlockInfo byNumber := ⟨fun _ _ _ hab hbc => Nat.le_trans hab hbc⟩

/-- The best primary header of the C9 data: number 5, modelled hash (`digest`) 100. -/
def bestC9 : Header :=
  { number := 5, extrinsics_root := 0, state_root := 0, parent_hash := 2, digest := 100 }

/-- The C9 environment: two leaves besides the best block, at numbers 4 and 5. -/
def envC9 : LeavesEnv :=
  { best_chain := .ok bestC9,
    leaves := [1, 2],
    number_of := fun h => if h = 1 then some 4 else if h = 2 then some 5 else none,
    header_of := fun h =>
      if h = 1 then
        some { number := 4, extrinsics_root := 0, state_root := 0, parent_hash := 0,
               digest := 1 }
      else if h = 2 then
        some { number := 5, extrinsics_root := 0, state_root := 0, parent_hash := 1,
               digest := 2 }
      else none,
    head_hash := fun h => h.digest }

/-- The best block's descriptor in the C9 data. -/
def bIC9 : BlockInfo := { hash := 100, parent_hash := 2, number := 5 }

/-- The leaf at number 5 in the C9 data. -/
def i2C9 : BlockInfo := { hash := 2, parent_hash := 1, number := 5 }

/-- The leaf at number 4 in the C9 data. -/
def i1C9 : BlockInfo := { hash := 1, parent_hash := 0, number := 4 }

/-- C9 counterexample: the returned list is the best block *first* followed by the
leaves in *descending* number order — not ascending by number with the best block as
the last element. -/
theorem active_leaves_order_counterexample :
    active_leaves envC9 = .ok [bIC9, i2C9, i1C9] ∧
    ¬ (List.Sorted (fun a b => a.number ≤ b.number) [bIC9, i2C9, i1C9] ∧
       [bIC9, i2C9, i1C9].getLast? = some bIC9) := by
  constructor
  · decide
  · rintro ⟨-, hl⟩
    simp [List.getLast?, bIC9, i1C9] at hl

/-- C9 amended: `active_leaves` is empty at genesis; otherwise it returns at most
`MAX_ACTIVE_LEAVES` descriptors, the best block first, followed by descriptors drawn
from the filtered leaf set (number at least `best − 1`, best hash excluded) in
descending number order. -/
theorem active_leaves_shape (env : LeavesEnv) (best : Header)
    (hbc : env.best_chain = .ok best) :
    (best.number = 0 → active_leaves env = .ok []) ∧
    (best.number ≠ 0 → ∃ l,
      active_leaves env = .ok
        ({ hash := env.head_hash best, parent_hash := best.parent_hash,
           number := best.number } :: l) ∧
      l.length ≤ MAX_ACTIVE_LEAVES - 1 ∧
      (∀ b ∈ l, b ∈ filteredLeaves env best) ∧
      List.Pairwise (fun a b => b.number ≤ a.number) l) := by
  constructor
  · intro h0
    unfold active_leaves
    simp [hbc, h0]
  · intro hne
    unfold active_leaves
    simp only [hbc, hne, if_false, ite_false]
    refine ⟨(sortByNumber (filteredLeaves env best)).reverse.take (MAX_ACTIVE_LEAVES - 1),
      ?_, ?_, ?_, ?_⟩
    · rw [List.reverse_append]
      have h4 : MAX_ACTIVE_LEAVES = 3 + 1 := rfl
      rw [h4]
      simp [List.take_succ_cons]
    · exact List.length_take_le (MAX_ACTIVE_LEAVES - 1)
        (sortByNumber (filteredLeaves env best)).reverse
    · intro b hb
      have hb1 : b ∈ (sortByNumber (filteredLeaves env best)).reverse :=
        List.take_subset _ _ hb
      rw [List.mem_reverse] at hb1
      exact ((List.perm_insertionSort byNumber (filteredLeaves env best)).mem_iff).mp hb1
    · have hs : List.Pairwise byNumber (sortByNumber (filteredLeaves env best)) :=
        List.sorted_insertionSort byNumber (filteredLeaves env best)
      have hr : List.Pairwise (fun a b => byNumber b a)
          (sortByNumber (filteredLeaves env best)).reverse :=
        List.pairwise_reverse.mpr hs
      exact List.Pairwise.sublist (List.take_sublist _ _) hr

/-- Witness for the amended C9 at the concrete C9 environment. -/
theorem active_leaves_shape_witness :
    (bestC9.number = 0 → active_leaves envC9 = .ok []) ∧
    (bestC9.number ≠ 0 → ∃ l,
      active_leaves envC9 = .ok
        ({ hash := envC9.head_hash bestC9, parent_hash := bestC9.parent_hash,
           number := bestC9.number } :: l) ∧
      l.length ≤ MAX_ACTIVE_LEAVES - 1 ∧
      (∀ b ∈ l, b ∈ filteredLeaves envC9 bestC9) ∧
      List.Pairwise (fun a b => b.number ≤ a.number) l) :=
  active_leaves_shape envC9 bestC9 rfl

end Subspace
